import Mathlib

/-!
# Verification of the DreamGaussian GUI job pipeline (`dream_gui.py`)

Shallow embedding of the job submission / sequential execution pipeline of
`dream_gui.py`:

* `selectConfig`, `dreamArgs`, `run_dreamgaussian` embed the module-level
  function `run_dreamgaussian` (config resolution, argument assembly,
  subprocess result handling);
* `obj_to_vox` embeds the voxel conversion wrapper;
* `mkJob`, `enqueue_job`, `process_next_job`, `poll_queue`, `finish_job`
  embed the queue controller methods of `AssetGeneratorApp`; the controller
  is modelled as a transition system (`step` over `Event`s) whose state
  carries, besides the fields present in the Python object (`pending` jobs,
  the `processing` flag), ghost logs of submitted and started jobs and the
  multiset of started-but-unfinished jobs, used to state ordering and
  mutual-exclusion properties;
* `run_job` embeds the worker-thread body `AssetGeneratorApp.run_job`; the
  outcomes of the external processes (exit code, captured streams, voxel
  converter behaviour) and the GUI preset value read at execution time are
  inputs gathered in `RunEnv`, and the function returns the job result, the
  user-visible dialog, the trace of external calls, the console log and the
  final value of the `processing` flag.

Python string truthiness (`if text_prompt:`) is modelled as `≠ ""`;
`str.strip` is modelled by `pyStrip`; `os.path.join a b` by `joinPath`.
-/

namespace DreamGui

/-- `os.path.join a b` (separator abstracted as `"/"`). -/
def joinPath (a b : String) : String := a ++ "/" ++ b

/-- `DREAMGAUSSIAN_SCRIPT = os.path.join(os.getcwd(), "run_dreamgaussian.py")`. -/
def DREAMGAUSSIAN_SCRIPT (cwd : String) : String := joinPath cwd "run_dreamgaussian.py"

/-- `config_dir = os.path.join(os.getcwd(), "configs")` in `run_dreamgaussian`. -/
def configDir (cwd : String) : String := joinPath cwd "configs"

/-- The preset values offered by the GUI combobox (`config_options`, line 153). -/
def config_options : List String :=
  ["auto", "image.yaml", "image_sai.yaml", "imagedream.yaml", "text.yaml", "text_mv.yaml"]

/-- Config resolution of `run_dreamgaussian` (lines 31-41):
`if config_preset and config_preset != "auto"` selects the override,
otherwise the presence of the prompts picks the preset. -/
def selectConfig (cwd text_prompt image_path config_preset : String) : String :=
  if config_preset ≠ "" ∧ config_preset ≠ "auto" then
    joinPath (configDir cwd) config_preset
  else if text_prompt ≠ "" ∧ image_path ≠ "" then
    joinPath (configDir cwd) "imagedream.yaml"
  else if text_prompt ≠ "" then
    joinPath (configDir cwd) "text.yaml"
  else
    joinPath (configDir cwd) "image.yaml"

/-- Argument assembly of `run_dreamgaussian` (lines 43-53). -/
def dreamArgs (pythonExe cwd text_prompt image_path out_dir mesh_name : String)
    (hd : Bool) (config_preset : String) : List String :=
  [pythonExe, DREAMGAUSSIAN_SCRIPT cwd,
   "--config", selectConfig cwd text_prompt image_path config_preset,
   "--output_dir", out_dir,
   "--name", mesh_name,
   if hd then "--hd" else "--low"]
  ++ (if text_prompt ≠ "" then ["--text", text_prompt] else [])
  ++ (if image_path ≠ "" then ["--image", image_path] else [])

/-- Result of `subprocess.run(args, capture_output=True, ...)`. -/
structure ProcResult where
  returncode : Int
  stdout : String
  stderr : String
deriving Repr, DecidableEq

/-- Exit-status handling of `run_dreamgaussian` (lines 56-62): non-zero exit
raises `Exception("DreamGaussian failed!")` (after printing `result.stderr`
to the console), zero exit returns the two derived output paths. -/
def run_dreamgaussian (proc : ProcResult) (out_dir mesh_name : String) :
    Except String (String × String) :=
  if proc.returncode ≠ 0 then
    Except.error "DreamGaussian failed!"
  else
    Except.ok (joinPath out_dir (mesh_name ++ ".obj"), joinPath out_dir (mesh_name ++ ".png"))

/-- `obj_to_vox` (lines 64-71): raises if the `obj2vox` package is missing,
otherwise calls `obj2vox` which may itself raise (`voxError`). -/
def obj_to_vox (importOk : Bool) (voxError : Option String) (vox_path : String) :
    Except String String :=
  if importOk = false then
    Except.error "You must install 'obj2vox' package (pip install obj2vox)!"
  else
    match voxError with
    | some e => Except.error e
    | none => Except.ok vox_path

/-- A job as enqueued by `enqueue_job` (line 201): the 9-tuple
`(text, img, out_dir, mesh_name, mesh_only, texture_only, mesh_and_texture,
voxel_mode, voxel_res)`. Note: the tuple has no config-preset component. -/
structure Job where
  text : String
  img : String
  out_dir : String
  mesh_name : String
  mesh_only : Bool
  texture_only : Bool
  mesh_and_texture : Bool
  voxel_mode : Bool
  voxel_res : Nat
deriving Repr, DecidableEq

/-- Whitespace characters removed by Python `str.strip` (ASCII range). -/
def pyIsSpace (c : Char) : Bool :=
  c = ' ' || c = '\t' || c = '\n' || c = '\x0d' || c = '\x0b' || c = '\x0c'

/-- `str.strip()`: drop leading and trailing whitespace. -/
def stripList (l : List Char) : List Char :=
  ((l.dropWhile pyIsSpace).reverse.dropWhile pyIsSpace).reverse

/-- Python `s.strip()` on strings. -/
def pyStrip (s : String) : String := String.mk (stripList s.data)

/-- The GUI form state read by `enqueue_job` at submission time. -/
structure GuiState where
  text_prompt : String
  image_path : String
  output_dir : String
  mesh_only : Bool
  texture_only : Bool
  mesh_and_texture : Bool
  voxel_mode : Bool
  voxel_res : Nat
deriving Repr, DecidableEq

/-- The job record built by `enqueue_job` (lines 194-201): prompts are
stripped, `mesh_name` derives from the count of entries in the output
directory (`len(os.listdir(out_dir))`, an environment input here). -/
def mkJob (g : GuiState) (listdirCount : Nat) : Job :=
  { text := pyStrip g.text_prompt,
    img := pyStrip g.image_path,
    out_dir := g.output_dir,
    mesh_name := "dreamasset_" ++ toString listdirCount,
    mesh_only := g.mesh_only,
    texture_only := g.texture_only,
    mesh_and_texture := g.mesh_and_texture,
    voxel_mode := g.voxel_mode,
    voxel_res := g.voxel_res }

/-- A user-facing dialog (`messagebox.showinfo / showwarning / showerror`). -/
inductive Dialog where
  | info (title msg : String)
  | warning (title msg : String)
  | error (title msg : String)
deriving Repr, DecidableEq

/-- An invocation of an external collaborator: the generation subprocess
(`subprocess.run` in `run_dreamgaussian`) or the `obj2vox` conversion
routine. -/
inductive ExtCall where
  | gen (args : List String)
  | vox (obj_path vox_path : String) (resolution : Nat)
deriving Repr, DecidableEq

/-- Environment of one `run_job` execution: interpreter/cwd, the GUI preset
value read at execution time (`self.config_preset.get()`, line 225), and the
behaviour of the two external tools. -/
structure RunEnv where
  pythonExe : String
  cwd : String
  guiPreset : String
  genResult : ProcResult
  voxImportOk : Bool
  voxError : Option String
deriving Repr

/-- Everything observable about one `run_job` execution. -/
structure JobOutcome where
  result : Except String (List String)
  dialog : Dialog
  calls : List ExtCall
  log : List String
  processing : Bool
deriving Repr

/-- The worker body `AssetGeneratorApp.run_job` (lines 222-243): run the
generation subprocess, assemble `out_paths`, optionally convert to voxels,
report success or catch any exception as an error dialog, and clear the
`processing` flag in the `finally` block. -/
def run_job (env : RunEnv) (job : Job) : JobOutcome :=
  let args := dreamArgs env.pythonExe env.cwd job.text job.img job.out_dir job.mesh_name
      true env.guiPreset
  let genLog := [env.genResult.stdout]
      ++ (if env.genResult.returncode ≠ 0 then [env.genResult.stderr] else [])
  match run_dreamgaussian env.genResult job.out_dir job.mesh_name with
  | Except.error e =>
      { result := Except.error e,
        dialog := Dialog.error "Error" ("Job failed: " ++ e),
        calls := [ExtCall.gen args],
        log := genLog,
        processing := false }
  | Except.ok (obj_path, tex_path) =>
      let out_paths := [obj_path]
        ++ (if job.texture_only || job.mesh_and_texture then [tex_path] else [])
      if job.voxel_mode then
        let vox_path := joinPath job.out_dir
            (job.mesh_name ++ "_" ++ toString job.voxel_res ++ ".vox")
        match obj_to_vox env.voxImportOk env.voxError vox_path with
        | Except.error e =>
            { result := Except.error e,
              dialog := Dialog.error "Error" ("Job failed: " ++ e),
              calls := [ExtCall.gen args]
                ++ (if env.voxImportOk then [ExtCall.vox obj_path vox_path job.voxel_res] else []),
              log := genLog,
              processing := false }
        | Except.ok vp =>
            let out_paths2 := out_paths ++ [vp]
            { result := Except.ok out_paths2,
              dialog := Dialog.info "Success"
                ("Generation complete!\nFiles:\n" ++ String.intercalate "\n" out_paths2),
              calls := [ExtCall.gen args, ExtCall.vox obj_path vox_path job.voxel_res],
              log := genLog,
              processing := false }
      else
        { result := Except.ok out_paths,
          dialog := Dialog.info "Success"
            ("Generation complete!\nFiles:\n" ++ String.intercalate "\n" out_paths),
          calls := [ExtCall.gen args],
          log := genLog,
          processing := false }

/-- Mesh path reported for a job: `<out_dir>/<mesh_name>.obj` (line 62). -/
def objPath (job : Job) : String := joinPath job.out_dir (job.mesh_name ++ ".obj")

/-- Texture path reported for a job: `<out_dir>/<mesh_name>.png` (line 62). -/
def texPath (job : Job) : String := joinPath job.out_dir (job.mesh_name ++ ".png")

/-- Voxel path for a job: `<out_dir>/<mesh_name>_<voxel_res>.vox` (line 233). -/
def voxPathOf (job : Job) : String :=
  joinPath job.out_dir (job.mesh_name ++ "_" ++ toString job.voxel_res ++ ".vox")

/-- The `out_paths` list a successful job reports (lines 227-235): the mesh
path unconditionally, the texture path when `texture_only or mesh_and_texture`,
the voxel path when `voxel_mode`. -/
def outPathsOf (job : Job) : List String :=
  [objPath job]
  ++ (if job.texture_only || job.mesh_and_texture then [texPath job] else [])
  ++ (if job.voxel_mode then [voxPathOf job] else [])

/-- The generation arguments `run_job` passes for a job under `env` (note
`hd=True` is hard-coded at line 226 and the preset is the GUI value in
`env`). -/
def jobGenArgs (env : RunEnv) (job : Job) : List String :=
  dreamArgs env.pythonExe env.cwd job.text job.img job.out_dir job.mesh_name true env.guiPreset

/-- `run_job` outcome when the generation subprocess exits non-zero. -/
def genFailOutcome (env : RunEnv) (job : Job) : JobOutcome :=
  { result := Except.error "DreamGaussian failed!",
    dialog := Dialog.error "Error" ("Job failed: " ++ "DreamGaussian failed!"),
    calls := [ExtCall.gen (jobGenArgs env job)],
    log := [env.genResult.stdout, env.genResult.stderr],
    processing := false }

/-- `run_job` outcome when generation succeeds but the voxel step raises `e`. -/
def voxFailOutcome (env : RunEnv) (job : Job) (e : String) : JobOutcome :=
  { result := Except.error e,
    dialog := Dialog.error "Error" ("Job failed: " ++ e),
    calls := [ExtCall.gen (jobGenArgs env job)]
      ++ (if env.voxImportOk then [ExtCall.vox (objPath job) (voxPathOf job) job.voxel_res] else []),
    log := [env.genResult.stdout],
    processing := false }

/-- `run_job` outcome when every step succeeds. -/
def okOutcome (env : RunEnv) (job : Job) : JobOutcome :=
  { result := Except.ok (outPathsOf job),
    dialog := Dialog.info "Success"
      ("Generation complete!\nFiles:\n" ++ String.intercalate "\n" (outPathsOf job)),
    calls := [ExtCall.gen (jobGenArgs env job)]
      ++ (if job.voxel_mode then [ExtCall.vox (objPath job) (voxPathOf job) job.voxel_res] else []),
    log := [env.genResult.stdout],
    processing := false }

/-- Controller state: `pending` is `self.jobs` (the FIFO queue), `processing`
the flag of the same name; `running` (started, not yet finished jobs),
`started` and `submitted` are ghost logs used to state the temporal
properties. -/
structure QState where
  pending : List Job
  processing : Bool
  running : List Job
  started : List Job
  submitted : List Job
deriving Repr, DecidableEq

/-- State right after `__init__`: empty queue, `processing = False`. -/
def initState : QState :=
  { pending := [], processing := false, running := [], started := [], submitted := [] }

/-- `AssetGeneratorApp.process_next_job` (lines 212-220): return if the queue
is empty, else set `processing`, pop the head and start a worker on it. -/
def process_next_job (s : QState) : QState :=
  match s.pending with
  | [] => s
  | j :: rest =>
      { s with processing := true,
               pending := rest,
               running := s.running ++ [j],
               started := s.started ++ [j] }

/-- `AssetGeneratorApp.enqueue_job` (lines 193-205): strip both prompts,
reject with a warning dialog when both are empty, otherwise build the job
tuple, append it to the queue and dispatch when not processing. -/
def enqueue_job (g : GuiState) (listdirCount : Nat) (s : QState) :
    QState × Option Dialog :=
  if pyStrip g.text_prompt = "" ∧ pyStrip g.image_path = "" then
    (s, some (Dialog.warning "No prompt" "Provide text and/or image prompt."))
  else
    let job := mkJob g listdirCount
    let s1 := { s with pending := s.pending ++ [job], submitted := s.submitted ++ [job] }
    (if s1.processing then s1 else process_next_job s1, none)

/-- `AssetGeneratorApp.poll_queue` (lines 207-210): when idle and the queue
is non-empty, dispatch. -/
def poll_queue (s : QState) : QState :=
  if s.processing = false ∧ s.pending.isEmpty = false then process_next_job s else s

/-- Completion of the worker thread: the `finally` block of `run_job`
(line 243) clears `processing`; the started job is no longer running.
Only fires when some job is running. -/
def finish_job (s : QState) : QState :=
  match s.running with
  | [] => s
  | _ :: rest => { s with running := rest, processing := false }

/-- The controller events: a Generate-button press (with the form state and
the directory-listing count at that moment), a 200 ms poll tick, and the
completion of the in-flight worker. -/
inductive Event where
  | submit (g : GuiState) (listdirCount : Nat)
  | poll
  | finish
deriving Repr

/-- One controller transition. -/
def step (s : QState) : Event → QState
  | Event.submit g n => (enqueue_job g n s).1
  | Event.poll => poll_queue s
  | Event.finish => finish_job s

/-- Run a sequence of events from the freshly initialised application. -/
def runEvents (es : List Event) : QState := es.foldl step initState

/-- Concrete job used to evaluate the theorems: both prompts set, texture
and voxel outputs selected. -/
def exJob : Job :=
  { text := "a red chair", img := "/tmp/cat.png", out_dir := "/out",
    mesh_name := "dreamasset_0", mesh_only := true, texture_only := false,
    mesh_and_texture := true, voxel_mode := true, voxel_res := 256 }

/-- Concrete job with voxel export disabled. -/
def exJobNoVox : Job := { exJob with voxel_mode := false }

/-- Environment where both external tools succeed; GUI preset is `"auto"`. -/
def exEnvOk : RunEnv :=
  { pythonExe := "/usr/bin/python", cwd := "/cwd", guiPreset := "auto",
    genResult := { returncode := 0, stdout := "done", stderr := "" },
    voxImportOk := true, voxError := none }

/-- Environment where the generation subprocess exits 1 with stderr text. -/
def exEnvFail : RunEnv :=
  { exEnvOk with genResult := { returncode := 1, stdout := "", stderr := "CUDA out of memory" } }

/-- GUI form state with both prompt entries empty. -/
def exGuiEmpty : GuiState :=
  { text_prompt := "", image_path := "", output_dir := "/out",
    mesh_only := true, texture_only := false, mesh_and_texture := true,
    voxel_mode := true, voxel_res := 256 }

/-- GUI form state whose prompts are whitespace only. -/
def exGuiWS : GuiState := { exGuiEmpty with text_prompt := "   ", image_path := " \t " }

/-- GUI form state with both prompts present. -/
def exGuiBoth : GuiState :=
  { exGuiEmpty with text_prompt := "a red chair", image_path := "/tmp/cat.png" }

/-- Controller state with one job in flight and one pending. -/
def exState : QState :=
  { pending := [exJobNoVox], processing := true, running := [exJob],
    started := [exJob], submitted := [exJob, exJobNoVox] }

/-- Controller invariant: at most one job is in flight, the `processing`
flag is an upper bound on in-flight jobs, and the submission log is exactly
the started log followed by the pending queue (FIFO, no loss, no
reordering). -/
def Inv (s : QState) : Prop :=
  s.running.length ≤ 1 ∧
  (s.processing = false → s.running = []) ∧
  s.submitted = s.started ++ s.pending

theorem inv_initState : Inv initState :=
  ⟨by simp [initState], by simp [initState], by simp [initState]⟩

theorem inv_process_next_job (s : QState) (hp : s.processing = false) (h : Inv s) :
    Inv (process_next_job s) := by
  obtain ⟨h1, h2, h3⟩ := h
  have hr : s.running = [] := h2 hp
  cases hpend : s.pending with
  | nil =>
    exact ⟨by simpa [process_next_job, hpend] using h1,
           by simpa [process_next_job, hpend] using h2,
           by simpa [process_next_job, hpend] using h3⟩
  | cons j rest =>
    rw [hpend] at h3
    refine ⟨?_, ?_, ?_⟩
    · simp [process_next_job, hpend, hr]
    · simp [process_next_job, hpend]
    · simp [process_next_job, hpend, h3]

theorem inv_enqueue (g : GuiState) (n : Nat) (s : QState) (h : Inv s) :
    Inv (enqueue_job g n s).1 := by
  obtain ⟨h1, h2, h3⟩ := h
  by_cases hrej : pyStrip g.text_prompt = "" ∧ pyStrip g.image_path = ""
  · rw [enqueue_job, if_pos hrej]
    exact ⟨h1, h2, h3⟩
  · rw [enqueue_job, if_neg hrej]
    simp only
    have hs1 : Inv { s with pending := s.pending ++ [mkJob g n],
                            submitted := s.submitted ++ [mkJob g n] } := by
      refine ⟨h1, h2, ?_⟩
      simp [h3]
    by_cases hp : s.processing
    · rw [if_pos hp]
      exact hs1
    · rw [if_neg hp]
      exact inv_process_next_job _ (by simpa using hp) hs1

theorem inv_poll (s : QState) (h : Inv s) : Inv (poll_queue s) := by
  by_cases hc : s.processing = false ∧ s.pending.isEmpty = false
  · rw [poll_queue, if_pos hc]
    exact inv_process_next_job s hc.1 h
  · rw [poll_queue, if_neg hc]
    exact h

theorem inv_finish (s : QState) (h : Inv s) : Inv (finish_job s) := by
  obtain ⟨h1, h2, h3⟩ := h
  cases hr : s.running with
  | nil =>
    exact ⟨by simp [finish_job, hr],
           by simp [finish_job, hr],
           by simp [finish_job, hr, h3]⟩
  | cons j rest =>
    have hrest : rest = [] := by
      rw [hr] at h1
      simpa using h1
    refine ⟨?_, ?_, ?_⟩
    · simp [finish_job, hr, hrest]
    · simp [finish_job, hr, hrest]
    · simp [finish_job, hr, h3]

theorem inv_step (s : QState) (e : Event) (h : Inv s) : Inv (step s e) := by
  cases e with
  | submit g n => exact inv_enqueue g n s h
  | poll => exact inv_poll s h
  | finish => exact inv_finish s h

theorem inv_foldl (es : List Event) (s : QState) (h : Inv s) :
    Inv (es.foldl step s) := by
  induction es generalizing s with
  | nil => exact h
  | cons e es ih => exact ih _ (inv_step s e h)

theorem inv_runEvents (es : List Event) : Inv (runEvents es) :=
  inv_foldl es initState inv_initState

theorem run_dreamgaussian_fail (proc : ProcResult) (o n : String)
    (h : proc.returncode ≠ 0) :
    run_dreamgaussian proc o n = Except.error "DreamGaussian failed!" := by
  rw [run_dreamgaussian, if_pos h]

theorem run_dreamgaussian_ok (proc : ProcResult) (o n : String)
    (h : proc.returncode = 0) :
    run_dreamgaussian proc o n =
      Except.ok (joinPath o (n ++ ".obj"), joinPath o (n ++ ".png")) := by
  rw [run_dreamgaussian, if_neg (by simp [h])]

theorem obj_to_vox_import_missing (v : Option String) (p : String) :
    obj_to_vox false v p =
      Except.error "You must install 'obj2vox' package (pip install obj2vox)!" := rfl

theorem obj_to_vox_raises (e p : String) :
    obj_to_vox true (some e) p = Except.error e := rfl

theorem obj_to_vox_succeeds (p : String) :
    obj_to_vox true none p = Except.ok p := rfl

theorem run_job_gen_fail (env : RunEnv) (job : Job)
    (h : env.genResult.returncode ≠ 0) :
    run_job env job = genFailOutcome env job := by
  unfold run_job genFailOutcome jobGenArgs
  rw [run_dreamgaussian_fail env.genResult job.out_dir job.mesh_name h]
  simp [h]

theorem run_job_ok (env : RunEnv) (job : Job)
    (hrc : env.genResult.returncode = 0)
    (hvox : job.voxel_mode = true → env.voxImportOk = true ∧ env.voxError = none) :
    run_job env job = okOutcome env job := by
  unfold run_job okOutcome jobGenArgs outPathsOf objPath texPath voxPathOf
  rw [run_dreamgaussian_ok env.genResult job.out_dir job.mesh_name hrc]
  by_cases hv : job.voxel_mode = true
  · obtain ⟨hi, hn⟩ := hvox hv
    rw [hi, hn, hv]
    simp [obj_to_vox_succeeds, hrc, List.append_assoc]
  · have hv2 : job.voxel_mode = false := by simpa using hv
    rw [hv2]
    simp [hrc]

theorem run_job_vox_fail (env : RunEnv) (job : Job) (e : String)
    (hrc : env.genResult.returncode = 0) (hv : job.voxel_mode = true)
    (he : obj_to_vox env.voxImportOk env.voxError (voxPathOf job) = Except.error e) :
    run_job env job = voxFailOutcome env job e := by
  unfold voxPathOf at he
  unfold run_job voxFailOutcome jobGenArgs objPath voxPathOf
  rw [run_dreamgaussian_ok env.genResult job.out_dir job.mesh_name hrc]
  rw [hv]
  simp only [if_true]
  rw [he]
  simp [hrc]

theorem run_job_branches (env : RunEnv) (job : Job) :
    run_job env job = genFailOutcome env job ∨
    (∃ e, run_job env job = voxFailOutcome env job e) ∨
    run_job env job = okOutcome env job := by
  by_cases hrc : env.genResult.returncode = 0
  · by_cases hv : job.voxel_mode = true
    · cases hi : env.voxImportOk with
      | false =>
        refine Or.inr (Or.inl ⟨"You must install 'obj2vox' package (pip install obj2vox)!",
          run_job_vox_fail env job _ hrc hv ?_⟩)
        rw [hi]
        exact obj_to_vox_import_missing env.voxError (voxPathOf job)
      | true =>
        cases hve : env.voxError with
        | some m =>
          refine Or.inr (Or.inl ⟨m, run_job_vox_fail env job m hrc hv ?_⟩)
          rw [hi, hve]
          exact obj_to_vox_raises m (voxPathOf job)
        | none =>
          exact Or.inr (Or.inr (run_job_ok env job hrc (fun _ => ⟨hi, hve⟩)))
    · exact Or.inr (Or.inr (run_job_ok env job hrc (fun hh => absurd hh hv)))
  · exact Or.inl (run_job_gen_fail env job hrc)

theorem run_job_processing_false (env : RunEnv) (job : Job) :
    (run_job env job).processing = false := by
  rcases run_job_branches env job with h | ⟨e, h⟩ | h <;> rw [h] <;> rfl

theorem run_job_calls_head (env : RunEnv) (job : Job) :
    (run_job env job).calls.head? = some (ExtCall.gen (jobGenArgs env job)) := by
  rcases run_job_branches env job with h | ⟨e, h⟩ | h <;> rw [h] <;>
    simp [genFailOutcome, voxFailOutcome, okOutcome]

theorem run_job_error_dialog (env : RunEnv) (job : Job) (e : String)
    (h : (run_job env job).result = Except.error e) :
    (run_job env job).dialog = Dialog.error "Error" ("Job failed: " ++ e) := by
  rcases run_job_branches env job with hb | ⟨e2, hb⟩ | hb <;> rw [hb] at h ⊢
  · have he : e = "DreamGaussian failed!" := by
      simpa [genFailOutcome] using h.symm
    rw [he]
    rfl
  · have he : e = e2 := by
      simpa [voxFailOutcome] using h.symm
    rw [he]
    rfl
  · exact absurd h (by simp [okOutcome])

theorem continue_after_finish (s : QState) (j : Job) (rest : List Job)
    (hrun : s.running ≠ []) (hp : s.pending = j :: rest) :
    (step (step s Event.finish) Event.poll).started = s.started ++ [j] := by
  cases hr : s.running with
  | nil => exact absurd hr hrun
  | cons r rs =>
    simp [step, finish_job, hr, poll_queue, hp, process_next_job]

theorem enqueue_rejected (g : GuiState) (n : Nat) (s : QState)
    (h1 : pyStrip g.text_prompt = "") (h2 : pyStrip g.image_path = "") :
    enqueue_job g n s =
      (s, some (Dialog.warning "No prompt" "Provide text and/or image prompt.")) := by
  rw [enqueue_job, if_pos ⟨h1, h2⟩]

theorem enqueue_accepted (g : GuiState) (n : Nat) (s : QState)
    (h : ¬ (pyStrip g.text_prompt = "" ∧ pyStrip g.image_path = "")) :
    (enqueue_job g n s).1 =
      (let s1 := { s with pending := s.pending ++ [mkJob g n],
                          submitted := s.submitted ++ [mkJob g n] }
       if s1.processing then s1 else process_next_job s1) := by
  rw [enqueue_job, if_neg h]

theorem pyStrip_all_space (sx : String)
    (h : ∀ c ∈ sx.data, pyIsSpace c = true) : pyStrip sx = "" := by
  unfold pyStrip stripList
  have hdw : sx.data.dropWhile pyIsSpace = [] := by
    rw [List.dropWhile_eq_nil_iff]
    exact h
  rw [hdw]
  rfl

theorem string_app_left_cancel {a b c : String} (h : a ++ b = a ++ c) : b = c := by
  have hd := congrArg String.data h
  rw [String.data_append, String.data_append] at hd
  exact String.ext (List.append_cancel_left hd)

theorem string_append_assoc3 (a b c : String) : a ++ b ++ c = a ++ (b ++ c) := by
  apply String.ext
  rw [String.data_append, String.data_append, String.data_append, String.data_append,
      List.append_assoc]

theorem joinPath_suffix_cancel (o n x y : String)
    (h : joinPath o (n ++ x) = joinPath o (n ++ y)) : x = y := by
  unfold joinPath at h
  exact string_app_left_cancel (string_app_left_cancel h)

theorem underscore_ne_dot (x y : String) : ("_" ++ x) ≠ ("." ++ y) := by
  intro h
  have hd := congrArg String.data h
  rw [String.data_append, String.data_append] at hd
  rw [show "_".data = ['_'] from rfl, show ".".data = ['.'] from rfl] at hd
  simp at hd

theorem texPath_ne_objPath (job : Job) : texPath job ≠ objPath job := by
  intro h
  unfold texPath objPath at h
  have h2 := joinPath_suffix_cancel _ _ _ _ h
  exact absurd h2 (by decide)

theorem voxPath_ne_objPath (job : Job) : voxPathOf job ≠ objPath job := by
  intro h
  unfold voxPathOf objPath at h
  rw [string_append_assoc3 job.mesh_name "_" (toString job.voxel_res),
      string_append_assoc3 job.mesh_name ("_" ++ toString job.voxel_res) ".vox",
      string_append_assoc3 "_" (toString job.voxel_res) ".vox"] at h
  have h2 := joinPath_suffix_cancel _ _ _ _ h
  rw [show (".obj" : String) = "." ++ "obj" from rfl] at h2
  exact underscore_ne_dot _ _ h2

theorem voxPath_ne_texPath (job : Job) : voxPathOf job ≠ texPath job := by
  intro h
  unfold voxPathOf texPath at h
  rw [string_append_assoc3 job.mesh_name "_" (toString job.voxel_res),
      string_append_assoc3 job.mesh_name ("_" ++ toString job.voxel_res) ".vox",
      string_append_assoc3 "_" (toString job.voxel_res) ".vox"] at h
  have h2 := joinPath_suffix_cancel _ _ _ _ h
  rw [show (".png" : String) = "." ++ "png" from rfl] at h2
  exact underscore_ne_dot _ _ h2

theorem objPath_mem (job : Job) : objPath job ∈ outPathsOf job := by
  simp [outPathsOf]

theorem texPath_mem_iff (job : Job) :
    texPath job ∈ outPathsOf job ↔ (job.texture_only || job.mesh_and_texture) = true := by
  by_cases hf : (job.texture_only || job.mesh_and_texture) = true
  · simp [outPathsOf, hf]
  · have hf2 : (job.texture_only || job.mesh_and_texture) = false := by simpa using hf
    by_cases hv : job.voxel_mode = true
    · simp [outPathsOf, hf2, hv, texPath_ne_objPath, Ne.symm (voxPath_ne_texPath job)]
    · have hv2 : job.voxel_mode = false := by simpa using hv
      simp [outPathsOf, hf2, hv2, texPath_ne_objPath]

theorem voxPath_mem_iff (job : Job) :
    voxPathOf job ∈ outPathsOf job ↔ job.voxel_mode = true := by
  by_cases hv : job.voxel_mode = true
  · simp [outPathsOf, hv]
  · have hv2 : job.voxel_mode = false := by simpa using hv
    by_cases hf : (job.texture_only || job.mesh_and_texture) = true
    · simp [outPathsOf, hv2, hf, voxPath_ne_objPath, voxPath_ne_texPath]
    · have hf2 : (job.texture_only || job.mesh_and_texture) = false := by simpa using hf
      simp [outPathsOf, hv2, hf2, voxPath_ne_objPath]

/-- C1: for any sequence of controller events from the initialised
application, at most one job is in the running state at any instant, and the
submission log always equals the started log followed by the pending queue —
so pipelines are started in exactly FIFO submission order, and a new pipeline
starts only when no previously started job is still running. -/
theorem fifo_order_single_run (es : List Event) :
    (runEvents es).running.length ≤ 1 ∧
    (runEvents es).submitted = (runEvents es).started ++ (runEvents es).pending := by
  obtain ⟨h1, _, h3⟩ := inv_runEvents es
  exact ⟨h1, h3⟩

/-- C2: config resolution is a pure deterministic function of the preset
override and prompt presence: a non-"auto" preset from the GUI's option list
is used unchanged (relative to the configs directory) regardless of prompts;
under "auto", text+image picks imagedream.yaml, text only picks text.yaml,
image only picks image.yaml. -/
theorem config_resolution (cwd t i preset : String) (hp : preset ∈ config_options) :
    (preset ≠ "auto" → selectConfig cwd t i preset = joinPath (configDir cwd) preset) ∧
    (preset = "auto" → t ≠ "" → i ≠ "" →
      selectConfig cwd t i preset = joinPath (configDir cwd) "imagedream.yaml") ∧
    (preset = "auto" → t ≠ "" → i = "" →
      selectConfig cwd t i preset = joinPath (configDir cwd) "text.yaml") ∧
    (preset = "auto" → t = "" → i ≠ "" →
      selectConfig cwd t i preset = joinPath (configDir cwd) "image.yaml") := by
  refine ⟨?_, ?_, ?_, ?_⟩
  · intro hne
    have hne2 : preset ≠ "" := by
      simp only [config_options, List.mem_cons, List.not_mem_nil, or_false] at hp
      rcases hp with rfl | rfl | rfl | rfl | rfl | rfl
      · exact absurd rfl hne
      all_goals decide
    rw [selectConfig, if_pos ⟨hne2, hne⟩]
  · intro ha ht hi
    subst ha
    rw [selectConfig, if_neg (by decide), if_pos ⟨ht, hi⟩]
  · intro ha ht hi
    subst ha
    rw [selectConfig, if_neg (by decide), if_neg (by simp [hi]), if_pos ht]
  · intro ha ht hi
    subst ha
    rw [selectConfig, if_neg (by decide), if_neg (by simp [ht]), if_neg (by simp [ht])]

/-- Witness for C2: concrete evaluation with preset "auto" and text only. -/
theorem config_resolution_witness :
    ("auto" ∈ config_options) ∧
    (((("auto" : String) ≠ "auto") →
        selectConfig "/app" "chair" "" "auto" = joinPath (configDir "/app") "auto") ∧
     ((("auto" : String) = "auto") → (("chair" : String) ≠ "") → (("" : String) ≠ "") →
        selectConfig "/app" "chair" "" "auto" = joinPath (configDir "/app") "imagedream.yaml") ∧
     ((("auto" : String) = "auto") → (("chair" : String) ≠ "") → (("" : String) = "") →
        selectConfig "/app" "chair" "" "auto" = joinPath (configDir "/app") "text.yaml") ∧
     ((("auto" : String) = "auto") → (("chair" : String) = "") → (("" : String) ≠ "") →
        selectConfig "/app" "chair" "" "auto" = joinPath (configDir "/app") "image.yaml")) :=
  ⟨by decide, config_resolution "/app" "chair" "" "auto" (by decide)⟩

/-- C3 counterexample: the generation subprocess exits 1 with stderr
"CUDA out of memory", yet the user-visible failure dialog is the fixed
message "Job failed: DreamGaussian failed!", which does not contain the
captured stderr text. -/
theorem stderr_not_shown_counterexample :
    exEnvFail.genResult.returncode = 1 ∧
    exEnvFail.genResult.stderr = "CUDA out of memory" ∧
    (run_job exEnvFail exJob).dialog =
      Dialog.error "Error" "Job failed: DreamGaussian failed!" ∧
    ¬ ("CUDA out of memory".data <:+: "Job failed: DreamGaussian failed!".data) := by
  refine ⟨rfl, rfl, ?_, by decide⟩
  rw [run_job_gen_fail exEnvFail exJob (by decide)]
  rfl

/-- C3 amended: a non-zero generation exit always yields a failed job result
(never a partial success); the user-visible dialog carries the fixed message
"Job failed: DreamGaussian failed!" while the captured stderr goes to the
console log, and no further pipeline step is invoked. -/
theorem generation_failure_amended (env : RunEnv) (job : Job)
    (h : env.genResult.returncode ≠ 0) :
    (run_job env job).result = Except.error "DreamGaussian failed!" ∧
    (run_job env job).dialog = Dialog.error "Error" "Job failed: DreamGaussian failed!" ∧
    env.genResult.stderr ∈ (run_job env job).log ∧
    (run_job env job).calls = [ExtCall.gen (jobGenArgs env job)] := by
  rw [run_job_gen_fail env job h]
  exact ⟨rfl, rfl, by simp [genFailOutcome], rfl⟩

/-- Witness for the amended C3: concrete failing environment. -/
theorem generation_failure_amended_witness :
    exEnvFail.genResult.returncode ≠ 0 ∧
    ((run_job exEnvFail exJob).result = Except.error "DreamGaussian failed!" ∧
     (run_job exEnvFail exJob).dialog =
       Dialog.error "Error" "Job failed: DreamGaussian failed!" ∧
     exEnvFail.genResult.stderr ∈ (run_job exEnvFail exJob).log ∧
     (run_job exEnvFail exJob).calls = [ExtCall.gen (jobGenArgs exEnvFail exJob)]) :=
  ⟨by decide, generation_failure_amended exEnvFail exJob (by decide)⟩

/-- C4 counterexample: the job tuple stores no config preset, and the same
job invoked after the GUI preset changed uses a different config: submitted
while the combobox read "text.yaml" but run with it on "auto", the job is
invoked with the auto-computed imagedream preset, not the text.yaml path. -/
theorem preset_not_in_job_counterexample :
    (run_job { exEnvOk with guiPreset := "text.yaml" } exJob).calls ≠
      (run_job exEnvOk exJob).calls ∧
    (run_job exEnvOk exJob).calls.head? = some (ExtCall.gen
      (dreamArgs "/usr/bin/python" "/cwd" "a red chair" "/tmp/cat.png" "/out"
        "dreamasset_0" true "auto")) ∧
    selectConfig "/cwd" "a red chair" "/tmp/cat.png" "auto" =
      joinPath (configDir "/cwd") "imagedream.yaml" ∧
    joinPath (configDir "/cwd") "imagedream.yaml" ≠ joinPath (configDir "/cwd") "text.yaml" :=
  ⟨by decide, by decide, by decide, by decide⟩

/-- C4 amended: the job record fixed at submission contains no config
preset; `run_job` reads the GUI preset at execution time, so the generation
invocation always uses the execution-time combobox value (argument 3 of the
command line is the config resolved from that value). -/
theorem preset_read_at_execution (env : RunEnv) (job : Job) :
    (run_job env job).calls.head? = some (ExtCall.gen (jobGenArgs env job)) ∧
    (jobGenArgs env job).get? 3 =
      some (selectConfig env.cwd job.text job.img env.guiPreset) :=
  ⟨run_job_calls_head env job, rfl⟩

/-- C5: a submission with both prompts unset is rejected synchronously with
a warning dialog, the controller state (hence the pending queue and its
length) is unchanged, and no job enters the queue. -/
theorem invalid_submission_rejected (g : GuiState) (n : Nat) (s : QState)
    (ht : g.text_prompt = "") (hi : g.image_path = "") :
    enqueue_job g n s =
      (s, some (Dialog.warning "No prompt" "Provide text and/or image prompt.")) ∧
    (enqueue_job g n s).1.pending = s.pending := by
  have h1 : pyStrip g.text_prompt = "" := by rw [ht]; rfl
  have h2 : pyStrip g.image_path = "" := by rw [hi]; rfl
  have he := enqueue_rejected g n s h1 h2
  exact ⟨he, by rw [he]⟩

/-- Witness for C5: concrete empty-prompt form state. -/
theorem invalid_submission_rejected_witness :
    exGuiEmpty.text_prompt = "" ∧
    (enqueue_job exGuiEmpty 0 initState =
      (initState, some (Dialog.warning "No prompt" "Provide text and/or image prompt.")) ∧
     (enqueue_job exGuiEmpty 0 initState).1.pending = initState.pending) :=
  ⟨rfl, invalid_submission_rejected exGuiEmpty 0 initState rfl rfl⟩

/-- C6: on a successful job the assembled result list is exactly the mesh
path, plus the texture path iff the texture flags select it, plus the voxel
path (derived from mesh name and voxel resolution) iff voxel export is
enabled; the mesh path is always a member. -/
theorem result_paths_match_flags (env : RunEnv) (job : Job)
    (hrc : env.genResult.returncode = 0)
    (hvox : job.voxel_mode = true → env.voxImportOk = true ∧ env.voxError = none) :
    (run_job env job).result = Except.ok (outPathsOf job) ∧
    objPath job ∈ outPathsOf job ∧
    (texPath job ∈ outPathsOf job ↔ (job.texture_only || job.mesh_and_texture) = true) ∧
    (voxPathOf job ∈ outPathsOf job ↔ job.voxel_mode = true) := by
  refine ⟨?_, objPath_mem job, texPath_mem_iff job, voxPath_mem_iff job⟩
  rw [run_job_ok env job hrc hvox]
  rfl

/-- Witness for C6: concrete successful environment and job. -/
theorem result_paths_match_flags_witness :
    exEnvOk.genResult.returncode = 0 ∧
    ((run_job exEnvOk exJob).result = Except.ok (outPathsOf exJob) ∧
     objPath exJob ∈ outPathsOf exJob ∧
     (texPath exJob ∈ outPathsOf exJob ↔ (exJob.texture_only || exJob.mesh_and_texture) = true) ∧
     (voxPathOf exJob ∈ outPathsOf exJob ↔ exJob.voxel_mode = true)) :=
  ⟨rfl, result_paths_match_flags exEnvOk exJob rfl (fun _ => ⟨rfl, rfl⟩)⟩

/-- C7: every pipeline failure is caught at the job boundary: `run_job`
always clears the processing flag (success or failure) and converts any
failure into a user-visible error dialog; once the in-flight job finishes,
the next poll dispatches the next pending job, so the queue keeps going. -/
theorem failure_isolated_queue_continues :
    (∀ (env : RunEnv) (job : Job), (run_job env job).processing = false) ∧
    (∀ (env : RunEnv) (job : Job) (e : String),
      (run_job env job).result = Except.error e →
      (run_job env job).dialog = Dialog.error "Error" ("Job failed: " ++ e)) ∧
    (∀ (s : QState) (j : Job) (rest : List Job),
      s.running ≠ [] → s.pending = j :: rest →
      (step (step s Event.finish) Event.poll).started = s.started ++ [j]) :=
  ⟨run_job_processing_false, run_job_error_dialog, continue_after_finish⟩

/-- Witness for C7: concrete failing job and a state with one job in flight
and one pending. -/
theorem failure_isolated_queue_continues_witness :
    (run_job exEnvFail exJob).processing = false ∧
    (run_job exEnvFail exJob).dialog =
      Dialog.error "Error" ("Job failed: " ++ "DreamGaussian failed!") ∧
    exState.running ≠ [] ∧ exState.pending = [exJobNoVox] ∧
    (step (step exState Event.finish) Event.poll).started = exState.started ++ [exJobNoVox] :=
  ⟨failure_isolated_queue_continues.1 exEnvFail exJob,
   failure_isolated_queue_continues.2.1 exEnvFail exJob "DreamGaussian failed!"
     (by rw [run_job_gen_fail exEnvFail exJob (by decide)]; rfl),
   by decide, rfl,
   failure_isolated_queue_continues.2.2 exState exJobNoVox [] (by decide) rfl⟩

/-- C8: when voxel export is disabled for a job, no conversion-routine call
occurs anywhere in that job's pipeline. -/
theorem no_voxel_call_when_disabled (env : RunEnv) (job : Job)
    (hv : job.voxel_mode = false) (p q : String) (r : Nat) :
    ExtCall.vox p q r ∉ (run_job env job).calls := by
  have hvn : ¬ job.voxel_mode = true := by simp [hv]
  by_cases hrc : env.genResult.returncode = 0
  · rw [run_job_ok env job hrc (fun hh => absurd hh hvn)]
    simp [okOutcome, hv]
  · rw [run_job_gen_fail env job hrc]
    simp [genFailOutcome]

/-- Witness for C8: concrete job with voxel export off. -/
theorem no_voxel_call_when_disabled_witness :
    exJobNoVox.voxel_mode = false ∧
    ExtCall.vox "/out/a.obj" "/out/a.vox" 256 ∉ (run_job exEnvOk exJobNoVox).calls :=
  ⟨rfl, no_voxel_call_when_disabled exEnvOk exJobNoVox rfl "/out/a.obj" "/out/a.vox" 256⟩

/-- C9: the generation argument list is interpreter, script, config path,
output dir, asset name, exactly one quality flag (--hd when hd else --low),
then --text with the prompt iff a text prompt is present, then --image with
the path iff an image prompt is present; a zero exit reports
`<out_dir>/<name>.obj` and `<out_dir>/<name>.png`. -/
theorem generation_invocation (pythonExe cwd t i o n preset : String) (hd : Bool)
    (proc : ProcResult) (hrc : proc.returncode = 0) :
    (hd = true → dreamArgs pythonExe cwd t i o n hd preset =
      [pythonExe, DREAMGAUSSIAN_SCRIPT cwd, "--config", selectConfig cwd t i preset,
       "--output_dir", o, "--name", n, "--hd"]
      ++ (if t ≠ "" then ["--text", t] else [])
      ++ (if i ≠ "" then ["--image", i] else [])) ∧
    (hd = false → dreamArgs pythonExe cwd t i o n hd preset =
      [pythonExe, DREAMGAUSSIAN_SCRIPT cwd, "--config", selectConfig cwd t i preset,
       "--output_dir", o, "--name", n, "--low"]
      ++ (if t ≠ "" then ["--text", t] else [])
      ++ (if i ≠ "" then ["--image", i] else [])) ∧
    run_dreamgaussian proc o n =
      Except.ok (joinPath o (n ++ ".obj"), joinPath o (n ++ ".png")) :=
  ⟨fun h => by subst h; rfl, fun h => by subst h; rfl, run_dreamgaussian_ok proc o n hrc⟩

/-- Witness for C9: concrete invocation with both prompts and hd quality. -/
theorem generation_invocation_witness :
    exEnvOk.genResult.returncode = 0 ∧
    ((true = true → dreamArgs "/usr/bin/python" "/cwd" "a red chair" "/tmp/cat.png"
        "/out" "dreamasset_0" true "auto" =
      ["/usr/bin/python", DREAMGAUSSIAN_SCRIPT "/cwd", "--config",
       selectConfig "/cwd" "a red chair" "/tmp/cat.png" "auto",
       "--output_dir", "/out", "--name", "dreamasset_0", "--hd"]
      ++ (if ("a red chair" : String) ≠ "" then ["--text", "a red chair"] else [])
      ++ (if ("/tmp/cat.png" : String) ≠ "" then ["--image", "/tmp/cat.png"] else [])) ∧
     (true = false → dreamArgs "/usr/bin/python" "/cwd" "a red chair" "/tmp/cat.png"
        "/out" "dreamasset_0" true "auto" =
      ["/usr/bin/python", DREAMGAUSSIAN_SCRIPT "/cwd", "--config",
       selectConfig "/cwd" "a red chair" "/tmp/cat.png" "auto",
       "--output_dir", "/out", "--name", "dreamasset_0", "--low"]
      ++ (if ("a red chair" : String) ≠ "" then ["--text", "a red chair"] else [])
      ++ (if ("/tmp/cat.png" : String) ≠ "" then ["--image", "/tmp/cat.png"] else [])) ∧
     run_dreamgaussian exEnvOk.genResult "/out" "dreamasset_0" =
       Except.ok (joinPath "/out" ("dreamasset_0" ++ ".obj"),
                  joinPath "/out" ("dreamasset_0" ++ ".png"))) :=
  ⟨rfl, generation_invocation "/usr/bin/python" "/cwd" "a red chair" "/tmp/cat.png"
      "/out" "dreamasset_0" "auto" true exEnvOk.genResult rfl⟩

/-- C10: prompt validation strips surrounding whitespace before checking
presence — whitespace-only prompts are rejected like unset ones — and the
stripped values are what the enqueued job stores and what the generation
argument assembly uses. -/
theorem stripped_prompt_validation :
    (∀ (g : GuiState) (n : Nat) (s : QState),
      (∀ c ∈ g.text_prompt.data, pyIsSpace c = true) →
      (∀ c ∈ g.image_path.data, pyIsSpace c = true) →
      enqueue_job g n s =
        (s, some (Dialog.warning "No prompt" "Provide text and/or image prompt."))) ∧
    (∀ (g : GuiState) (n : Nat),
      (mkJob g n).text = pyStrip g.text_prompt ∧ (mkJob g n).img = pyStrip g.image_path) ∧
    (∀ (env : RunEnv) (job : Job),
      (run_job env job).calls.head? = some (ExtCall.gen (dreamArgs env.pythonExe env.cwd
        job.text job.img job.out_dir job.mesh_name true env.guiPreset))) :=
  ⟨fun g n s hwt hwi =>
      enqueue_rejected g n s (pyStrip_all_space _ hwt) (pyStrip_all_space _ hwi),
   fun _ _ => ⟨rfl, rfl⟩,
   fun env job => run_job_calls_head env job⟩

/-- Witness for C10: whitespace-only prompts are rejected; stripped values
are stored and used on a concrete job. -/
theorem stripped_prompt_validation_witness :
    (∀ c ∈ exGuiWS.text_prompt.data, pyIsSpace c = true) ∧
    (∀ c ∈ exGuiWS.image_path.data, pyIsSpace c = true) ∧
    enqueue_job exGuiWS 0 initState =
      (initState, some (Dialog.warning "No prompt" "Provide text and/or image prompt.")) ∧
    (mkJob exGuiBoth 0).text = pyStrip exGuiBoth.text_prompt ∧
    (run_job exEnvOk exJob).calls.head? = some (ExtCall.gen (dreamArgs exEnvOk.pythonExe
      exEnvOk.cwd exJob.text exJob.img exJob.out_dir exJob.mesh_name true exEnvOk.guiPreset)) :=
  ⟨by decide, by decide,
   stripped_prompt_validation.1 exGuiWS 0 initState (by decide) (by decide),
   (stripped_prompt_validation.2.1 exGuiBoth 0).1,
   stripped_prompt_validation.2.2 exEnvOk exJob⟩

end DreamGui
